import Mathlib

/-!
Shallow embedding of `src/main.rs` of the binary-release-server repository:
the `Config` model, the serde-style JSON deserialization of `Config`, the
multi-path configuration resolver `load_config`, the two HTTP handlers, and
the bootstrap behaviour of `main` on a config-load failure.
-/

namespace ConfigServer

/-- JSON values, as produced by `serde_json` from a config file's text.
Numbers are modelled as integers, which is all the `Config` shape can accept
for `port`; `message` only inspects the string constructor. -/
inductive Json where
  | null
  | bool (b : Bool)
  | num (n : Int)
  | str (s : String)
  | arr (elems : List Json)
  | obj (fields : List (String × Json))

/-- The outcome of the text-to-JSON phase of `serde_json::from_str`:
either the text is syntactically malformed (with an error detail), or it
denotes a JSON value. -/
inductive JsonDoc where
  | malformed (detail : String)
  | value (j : Json)

/-- The state of one filesystem path, as observed by `load_config`:
`config_path.exists()` is false (`absent`), or it exists but
`fs::read_to_string` fails (`unreadable`), or reading succeeds and yields
the given document (`readable`). -/
inductive FileState where
  | absent
  | unreadable (err : String)
  | readable (doc : JsonDoc)

/-- A filesystem: the state of every path string. -/
def FS : Type := String → FileState

/-- The `Config` struct of `src/main.rs` (lines 8-12): a `message` string and
a `port` of Rust type `u16`, modelled as a `Nat` kept below 2^16 by the
deserializer. -/
structure Config where
  message : String
  port : Nat
deriving DecidableEq

/-- The `AppState` struct of `src/main.rs` (lines 14-16). -/
structure AppState where
  config : Config

/-- One step of the serde-derive deserializer for `Config`: consume one
`(key, value)` pair of the JSON object, updating the pending
`(message?, port?)` state. A `message` key requires a JSON string; a `port`
key requires an integer representable as `u16`; a repeated known key is a
duplicate-field error; any other key is ignored. -/
def setField : Option String × Option Nat → String × Json →
    Except String (Option String × Option Nat)
  | (m, p), (k, v) =>
    if k = "message" then
      match m with
      | some _ => .error "duplicate field message"
      | none =>
        match v with
        | .str s => .ok (some s, p)
        | _ => .error "invalid type for field message: expected a string"
    else if k = "port" then
      match p with
      | some _ => .error "duplicate field port"
      | none =>
        match v with
        | .num n =>
          if 0 ≤ n ∧ n ≤ 65535 then .ok (m, some n.toNat)
          else .error "invalid value for field port: out of range for u16"
        | _ => .error "invalid type for field port: expected u16"
    else .ok (m, p)

/-- Fold the serde-derive deserializer over the fields of a JSON object;
at the end, both required fields must have been seen. -/
def deserFields : List (String × Json) → Option String × Option Nat →
    Except String Config
  | [], (some m, some p) => .ok ⟨m, p⟩
  | [], (none, _) => .error "missing field message"
  | [], (some _, none) => .error "missing field port"
  | kv :: rest, st =>
    match setField st kv with
    | .error e => .error e
    | .ok st2 => deserFields rest st2

/-- Deserialize a JSON value into a `Config` (the semantics of
`serde_json::from_str::<Config>` after the text has parsed to a value):
the value must be an object with a string `message` and a `u16` `port`. -/
def deserializeConfig : Json → Except String Config
  | .obj fields => deserFields fields (none, none)
  | _ => .error "invalid type: expected a JSON object"

/-- `serde_json::from_str::<Config>` on a document: a syntax error is
reported as-is, otherwise the value is deserialized. -/
def fromStr : JsonDoc → Except String Config
  | .malformed d => .error d
  | .value j => deserializeConfig j

/-- `Path::join` with a relative right-hand component, as used on every
candidate path of `load_config`. -/
def joinPath (dir rel : String) : String := dir ++ "/" ++ rel

/-- The ordered candidate path list of `load_config`
(`src/main.rs` lines 76-101): two executable-relative `config/config.json`
variants, three cwd-relative variants, `config.json` next to the
executable, and the unconditional fallback `"config.json"`. The
`exeDir`/`cwd` arguments are `none` when `env::current_exe()` (or its
`parent()`) respectively `env::current_dir()` is unavailable. -/
def configPaths (exeDir cwd : Option String) : List String :=
  (match exeDir with
    | some d => [joinPath d "config/config.json", joinPath d "../config/config.json"]
    | none => []) ++
  (match cwd with
    | some c => [joinPath c "config/config.json", joinPath c "../config/config.json",
                 joinPath c "config.json"]
    | none => []) ++
  (match exeDir with
    | some d => [joinPath d "config.json"]
    | none => []) ++
  ["config.json"]

/-- The aggregated failure message built at `src/main.rs` lines 124-128,
from the final value of `last_error`. -/
def aggMsg (lastError : Option String) : String :=
  "Failed to load config from any path. Last error: " ++ lastError.getD ""

/-- The candidate loop of `load_config` (`src/main.rs` lines 103-128),
threading the `last_error` accumulator: an absent path records
`"<path>: not found"` and continues; an unreadable path records
`"<path>: <err>"` and continues; a readable path is parsed, returning its
`Config` on success and failing the whole resolution with a
`Failed to parse` error otherwise; an exhausted list yields the aggregated
error. -/
def loadConfigLoop (fs : FS) : List String → Option String → Except String Config
  | [], lastError => .error (aggMsg lastError)
  | p :: rest, _ =>
    match fs p with
    | .absent => loadConfigLoop fs rest (some (p ++ ": not found"))
    | .unreadable e => loadConfigLoop fs rest (some (p ++ ": " ++ e))
    | .readable doc =>
      match fromStr doc with
      | .error e => .error ("Failed to parse " ++ p ++ ": " ++ e)
      | .ok config => .ok config

/-- `load_config` (`src/main.rs` lines 71-129): run the candidate loop over
the candidate list, starting with no recorded failure. -/
def load_config (fs : FS) (exeDir cwd : Option String) : Except String Config :=
  loadConfigLoop fs (configPaths exeDir cwd) none

/-- An HTTP response: status code and body. -/
structure Response where
  status : Nat
  body : String
deriving DecidableEq

/-- `home_handler` (`src/main.rs` lines 61-65): returns the config's
`message` as the body; a bare `String` response in axum carries status 200. -/
def home_handler (state : AppState) : Response :=
  { status := 200, body := state.config.message }

/-- `health_handler` (`src/main.rs` lines 67-69): takes no state and returns
`(StatusCode::OK, "OK")`. -/
def health_handler : Response :=
  { status := 200, body := "OK" }

/-- The observable outcome of `main`'s bootstrap sequence
(`src/main.rs` lines 29-58): either the process exited with a code after
printing to stderr, or it is serving. `listenerBound` records whether a
listening socket was ever bound. -/
structure BootResult where
  exitCode : Option Nat
  stderrMsg : Option String
  listenerBound : Bool
  served : Option Config
deriving DecidableEq

/-- The bootstrap logic of `main` (`src/main.rs` lines 29-58): on a config
load failure, print `Failed to load config: <err>` and exit with code 1
without binding; on success bind `0.0.0.0:<port>`, exiting with code 1 if
the bind fails (`bindOk` models whether the OS grants the port). -/
def runMain (fs : FS) (exeDir cwd : Option String) (bindOk : Bool) : BootResult :=
  match load_config fs exeDir cwd with
  | .error e =>
    { exitCode := some 1, stderrMsg := some ("Failed to load config: " ++ e),
      listenerBound := false, served := none }
  | .ok config =>
    if bindOk then
      { exitCode := none, stderrMsg := none, listenerBound := true,
        served := some config }
    else
      { exitCode := some 1,
        stderrMsg := some ("Failed to bind to 0.0.0.0:" ++ toString config.port),
        listenerBound := false, served := none }

/-- A candidate path the loop skips past: it is absent or unreadable. -/
def skipped (fs : FS) (p : String) : Prop :=
  fs p = .absent ∨ ∃ e, fs p = .unreadable e

/-- The `last_error` entry recorded when the loop skips path `p`. -/
def skipMsg (fs : FS) (p : String) : String :=
  match fs p with
  | .absent => p ++ ": not found"
  | .unreadable e => p ++ ": " ++ e
  | .readable _ => ""

/-- Modelled from the spec: the spec's phrase for claim C1, "the first
candidate path in priority order that exists, is readable, and parses
successfully", as a selection function over the candidate list; used only
to compare the spec's wording against `load_config`. -/
def firstGoodParse (fs : FS) : List String → Option Config
  | [] => none
  | p :: rest =>
    match fs p with
    | .readable doc =>
      match fromStr doc with
      | .ok c => some c
      | .error _ => firstGoodParse fs rest
    | _ => firstGoodParse fs rest

/-- The candidate list without its unconditional `"config.json"` fallback. -/
def configPathsInit (exeDir cwd : Option String) : List String :=
  (match exeDir with
    | some d => [joinPath d "config/config.json", joinPath d "../config/config.json"]
    | none => []) ++
  (match cwd with
    | some c => [joinPath c "config/config.json", joinPath c "../config/config.json",
                 joinPath c "config.json"]
    | none => []) ++
  (match exeDir with
    | some d => [joinPath d "config.json"]
    | none => [])

theorem configPaths_eq_init_append (exeDir cwd : Option String) :
    configPaths exeDir cwd = configPathsInit exeDir cwd ++ ["config.json"] := by
  cases exeDir <;> cases cwd <;> simp [configPaths, configPathsInit]

theorem fallback_mem_configPaths (exeDir cwd : Option String) :
    "config.json" ∈ configPaths exeDir cwd := by
  rw [configPaths_eq_init_append]
  simp

theorem loop_skip_cons (fs : FS) (p : String) (rest : List String)
    (le : Option String) (h : skipped fs p) :
    loadConfigLoop fs (p :: rest) le = loadConfigLoop fs rest (some (skipMsg fs p)) := by
  rcases h with h | ⟨e, h⟩ <;> simp [loadConfigLoop, skipMsg, h]

theorem loop_skipped_prefix (fs : FS) : ∀ (ps : List String) (q : String)
    (rest : List String) (le : Option String) (doc : JsonDoc),
    (∀ p ∈ ps, skipped fs p) → fs q = .readable doc →
    loadConfigLoop fs (ps ++ q :: rest) le =
      match fromStr doc with
      | .error e => .error ("Failed to parse " ++ q ++ ": " ++ e)
      | .ok c => .ok c := by
  intro ps
  induction ps with
  | nil =>
    intro q rest le doc _ hq
    simp [loadConfigLoop, hq]
  | cons p ps ih =>
    intro q rest le doc h hq
    rw [List.cons_append, loop_skip_cons fs p _ le (h p (by simp))]
    exact ih q rest _ doc (fun r hr => h r (by simp [hr])) hq

theorem loop_all_skipped (fs : FS) : ∀ (ps : List String) (q : String)
    (le : Option String), (∀ p ∈ ps, skipped fs p) → skipped fs q →
    loadConfigLoop fs (ps ++ [q]) le = .error (aggMsg (some (skipMsg fs q))) := by
  intro ps
  induction ps with
  | nil =>
    intro q le _ hq
    rw [List.nil_append, loop_skip_cons fs q [] le hq]
    rfl
  | cons p ps ih =>
    intro q le h hq
    rw [List.cons_append, loop_skip_cons fs p _ le (h p (by simp))]
    exact ih q _ (fun r hr => h r (by simp [hr])) hq

/-- Claim C1 fails on the code: a filesystem where the highest-priority
candidate is readable but malformed while the next candidate parses to a
valid `Config`. The spec-worded selector picks the later good candidate,
but `load_config` returns a parse error instead. -/
def goodJson : Json := .obj [("message", .str "hi"), ("port", .num 80)]

/-- Filesystem for the C1 counterexample and the C2 witness: the first
candidate for `exeDir = none`, `cwd = some "/w"` is readable but
syntactically malformed; the second candidate holds a well-formed config;
everything else is absent. -/
def cexFS : FS := fun p =>
  if p = "/w/config/config.json" then .readable (.malformed "expected value")
  else if p = "/w/../config/config.json" then .readable (.value goodJson)
  else .absent

/-- Claim C1, as stated, is false at a concrete filesystem: the first
candidate that exists, is readable, and parses successfully yields
`{message := "hi", port := 80}`, yet `load_config` does not return it — it
fails with a parse error from the earlier malformed candidate. -/
theorem c1_counterexample :
    firstGoodParse cexFS (configPaths none (some "/w")) =
      some { message := "hi", port := 80 } ∧
    load_config cexFS none (some "/w") =
      .error "Failed to parse /w/config/config.json: expected value" ∧
    ∀ c, load_config cexFS none (some "/w") ≠ Except.ok c :=
  ⟨rfl, rfl, fun _ h => Except.noConfusion
    ((Eq.symm (rfl : load_config cexFS none (some "/w") =
      Except.error "Failed to parse /w/config/config.json: expected value")).trans h)⟩

/-- Claim C1 (amended): for every filesystem state in which every candidate
before some candidate `q` is skipped (absent or unreadable) and `q` is
readable and parses successfully, `load_config` returns the `Config` parsed
from `q`, regardless of what lower-priority candidates contain. -/
theorem c1_first_readable_parses (fs : FS) (exeDir cwd : Option String)
    (ps : List String) (q : String) (rest : List String) (doc : JsonDoc)
    (cfg : Config)
    (hsplit : configPaths exeDir cwd = ps ++ q :: rest)
    (hskip : ∀ p ∈ ps, skipped fs p)
    (hq : fs q = .readable doc)
    (hok : fromStr doc = .ok cfg) :
    load_config fs exeDir cwd = .ok cfg := by
  rw [load_config, hsplit, loop_skipped_prefix fs ps q rest none doc hskip hq, hok]

/-- Filesystem for the C1 witness: the first candidate for
`exeDir = none`, `cwd = some "/w"` holds a well-formed config and a
lower-priority candidate is malformed, so the first one wins. -/
def c1FS : FS := fun p =>
  if p = "/w/config/config.json" then .readable (.value goodJson)
  else if p = "/w/../config/config.json" then .readable (.malformed "junk")
  else .absent

theorem c1_witness :
    load_config c1FS none (some "/w") = .ok { message := "hi", port := 80 } :=
  c1_first_readable_parses c1FS none (some "/w") [] "/w/config/config.json"
    ["/w/../config/config.json", "/w/config.json", "config.json"]
    (.value goodJson) { message := "hi", port := 80 }
    rfl (by simp) rfl rfl

/-- Claim C2: if every candidate before `q` is skipped and `q` exists, reads,
but fails to parse, `load_config` fails immediately with a parse error
naming `q` and the detail, independently of every later candidate
(`rest` and the filesystem beyond `q` are unconstrained). -/
theorem c2_parse_failure_is_fatal (fs : FS) (exeDir cwd : Option String)
    (ps : List String) (q : String) (rest : List String) (doc : JsonDoc)
    (err : String)
    (hsplit : configPaths exeDir cwd = ps ++ q :: rest)
    (hskip : ∀ p ∈ ps, skipped fs p)
    (hq : fs q = .readable doc)
    (herr : fromStr doc = .error err) :
    load_config fs exeDir cwd = .error ("Failed to parse " ++ q ++ ": " ++ err) := by
  rw [load_config, hsplit, loop_skipped_prefix fs ps q rest none doc hskip hq, herr]

theorem c2_witness :
    load_config cexFS none (some "/w") =
      .error ("Failed to parse " ++ "/w/config/config.json" ++ ": " ++ "expected value") :=
  c2_parse_failure_is_fatal cexFS none (some "/w") [] "/w/config/config.json"
    ["/w/../config/config.json", "/w/config.json", "config.json"]
    (.malformed "expected value") "expected value"
    rfl (by simp) rfl rfl

/-- Claim C3, as stated, is false at concrete directories: the candidate
list has seven entries and does not contain the two-levels-up candidate
`<executable_directory>/../../config/config.json`. -/
theorem c3_counterexample :
    configPaths (some "/opt/app/bin") (some "/srv") ≠
      ["/opt/app/bin/config/config.json",
       "/opt/app/bin/../config/config.json",
       "/opt/app/bin/../../config/config.json",
       "/srv/config/config.json",
       "/srv/../config/config.json",
       "/srv/config.json",
       "/opt/app/bin/config.json",
       "config.json"] := by
  decide

/-- Claim C3 (amended): when both the executable directory and the current
working directory are available, the candidate list is exactly, in order:
`<exe>/config/config.json`, `<exe>/../config/config.json`,
`<cwd>/config/config.json`, `<cwd>/../config/config.json`,
`<cwd>/config.json`, `<exe>/config.json`, and the fallback `config.json`;
there is no two-levels-up candidate. -/
theorem c3_candidate_list (d c : String) :
    configPaths (some d) (some c) =
      [joinPath d "config/config.json",
       joinPath d "../config/config.json",
       joinPath c "config/config.json",
       joinPath c "../config/config.json",
       joinPath c "config.json",
       joinPath d "config.json",
       "config.json"] := rfl

/-- Claim C4: when every candidate is skipped (absent or unreadable),
`load_config` returns an error (never a `Config`) whose message aggregates
the last recorded failure — the one for the final `"config.json"`
candidate; and when no candidate exists at all, the message is the concrete
not-found aggregate, which is not a parse error and ends in `not found`. -/
theorem c4_exhausted_aggregates (fs : FS) (exeDir cwd : Option String)
    (h : ∀ p ∈ configPaths exeDir cwd, skipped fs p) :
    load_config fs exeDir cwd =
      .error ("Failed to load config from any path. Last error: " ++
        skipMsg fs "config.json") ∧
    ((∀ p ∈ configPaths exeDir cwd, fs p = .absent) →
      load_config fs exeDir cwd =
        .error "Failed to load config from any path. Last error: config.json: not found" ∧
      ("Failed to parse".data.isPrefixOf
        "Failed to load config from any path. Last error: config.json: not found".data)
        = false ∧
      ("not found".data.isSuffixOf
        "Failed to load config from any path. Last error: config.json: not found".data)
        = true) := by
  have hmain : load_config fs exeDir cwd =
      .error ("Failed to load config from any path. Last error: " ++
        skipMsg fs "config.json") := by
    rw [load_config, configPaths_eq_init_append]
    rw [loop_all_skipped fs (configPathsInit exeDir cwd) "config.json" none
      (fun p hp => h p (by rw [configPaths_eq_init_append]; simp [hp]))
      (h "config.json" (fallback_mem_configPaths exeDir cwd))]
    rfl
  refine ⟨hmain, fun habs => ⟨?_, by decide, by decide⟩⟩
  have hcj : fs "config.json" = FileState.absent :=
    habs "config.json" (fallback_mem_configPaths exeDir cwd)
  rw [hmain]
  simp only [skipMsg, hcj]
  rfl

theorem c4_witness :
    load_config (fun _ => FileState.absent) none none =
      .error "Failed to load config from any path. Last error: config.json: not found" :=
  ((c4_exhausted_aggregates (fun _ => FileState.absent) none none
    (fun _ _ => Or.inl rfl)).2 (fun _ _ => rfl)).1

/-- Claim C5: for each candidate, an absent path records
`<path>: not found` as the latest failure and the loop continues with the
remaining candidates; an existing path whose read fails records
`<path>: <err>` and the loop likewise continues. -/
theorem c5_skip_and_continue (fs : FS) (p : String) (rest : List String)
    (le : Option String) :
    (fs p = .absent →
      loadConfigLoop fs (p :: rest) le =
        loadConfigLoop fs rest (some (p ++ ": not found"))) ∧
    (∀ e, fs p = .unreadable e →
      loadConfigLoop fs (p :: rest) le =
        loadConfigLoop fs rest (some (p ++ ": " ++ e))) := by
  constructor
  · intro h
    simp [loadConfigLoop, h]
  · intro e h
    simp [loadConfigLoop, h]

theorem c5_witness :
    loadConfigLoop (fun _ => FileState.absent) ["a", "b"] none =
      loadConfigLoop (fun _ => FileState.absent) ["b"] (some ("a" ++ ": not found")) ∧
    loadConfigLoop (fun _ => FileState.unreadable "denied") ["a", "b"] none =
      loadConfigLoop (fun _ => FileState.unreadable "denied") ["b"]
        (some ("a" ++ ": " ++ "denied")) :=
  ⟨(c5_skip_and_continue (fun _ => FileState.absent) "a" ["b"] none).1 rfl,
   (c5_skip_and_continue (fun _ => FileState.unreadable "denied") "a" ["b"] none).2
     "denied" rfl⟩

/-- Claim C7: the home handler answers with status 200 and a body equal,
byte for byte, to the loaded config's `message`. -/
theorem c7_home_returns_message (state : AppState) :
    home_handler state = { status := 200, body := state.config.message } := rfl

/-- Claim C8: the health handler — a constant taking no state at all, hence
performing no config access — answers status 200 with body `OK`. -/
theorem c8_health_ok : health_handler = { status := 200, body := "OK" } := rfl

/-- Claim C9: whenever `load_config` fails, `main` prints
`Failed to load config: <err>` to stderr and exits with code 1, with no
listening socket ever bound and nothing served, for every bind outcome. -/
theorem c9_config_error_exits (fs : FS) (exeDir cwd : Option String)
    (bindOk : Bool) (err : String)
    (h : load_config fs exeDir cwd = .error err) :
    runMain fs exeDir cwd bindOk =
      { exitCode := some 1, stderrMsg := some ("Failed to load config: " ++ err),
        listenerBound := false, served := none } := by
  simp [runMain, h]

theorem c9_witness :
    runMain (fun _ => FileState.absent) none none true =
      { exitCode := some 1,
        stderrMsg := some ("Failed to load config: " ++
          "Failed to load config from any path. Last error: config.json: not found"),
        listenerBound := false, served := none } :=
  c9_config_error_exits (fun _ => FileState.absent) none none true
    "Failed to load config from any path. Last error: config.json: not found" rfl

/-- Claim C10: the candidate list always ends in the unconditional
`"config.json"` fallback and is therefore never empty; whenever the loop
exhausts the list, `last_error` has been set to the fallback's failure
entry, a non-empty string naming that path — so the empty-string default of
the final `unwrap_or_default` is never what the aggregated message uses. -/
theorem c10_fallback_guarantees (fs : FS) (exeDir cwd : Option String) :
    configPaths exeDir cwd ≠ [] ∧
    ((∀ p ∈ configPaths exeDir cwd, skipped fs p) →
      ∃ s, s ≠ "" ∧ s = skipMsg fs "config.json" ∧
        load_config fs exeDir cwd =
          .error ("Failed to load config from any path. Last error: " ++ s)) := by
  constructor
  · rw [configPaths_eq_init_append]
    simp
  · intro h
    refine ⟨skipMsg fs "config.json", ?_, rfl, ?_⟩
    · rcases h "config.json" (fallback_mem_configPaths exeDir cwd) with habs | ⟨e, hunr⟩
      · simp only [skipMsg, habs]
        intro hcontra
        have hlen := congrArg String.length hcontra
        rw [String.length_append] at hlen
        rw [show (": not found" : String).length = 11 from rfl,
          show ("" : String).length = 0 from rfl] at hlen
        omega
      · simp only [skipMsg, hunr]
        intro hcontra
        have hlen := congrArg String.length hcontra
        rw [String.length_append, String.length_append] at hlen
        rw [show (": " : String).length = 2 from rfl,
          show ("" : String).length = 0 from rfl] at hlen
        omega
    · rw [load_config, configPaths_eq_init_append]
      rw [loop_all_skipped fs (configPathsInit exeDir cwd) "config.json" none
        (fun p hp => h p (by rw [configPaths_eq_init_append]; simp [hp]))
        (h "config.json" (fallback_mem_configPaths exeDir cwd))]
      rfl

theorem c10_witness :
    configPaths none none ≠ [] ∧
    ∃ s, s ≠ "" ∧ s = skipMsg (fun _ => FileState.absent) "config.json" ∧
      load_config (fun _ => FileState.absent) none none =
        .error ("Failed to load config from any path. Last error: " ++ s) :=
  ⟨(c10_fallback_guarantees (fun _ => FileState.absent) none none).1,
   (c10_fallback_guarantees (fun _ => FileState.absent) none none).2
     (fun _ _ => Or.inl rfl)⟩

/-- Whether a deserialization outcome is an error. -/
def isError : Except String Config → Bool
  | .error _ => true
  | .ok _ => false

theorem setField_unknown (st : Option String × Option Nat) (k : String) (v : Json)
    (h1 : k ≠ "message") (h2 : k ≠ "port") : setField st (k, v) = .ok st := by
  obtain ⟨m, p⟩ := st
  simp [setField, h1, h2]

theorem deserFields_skip_unknown : ∀ (ex rest : List (String × Json))
    (st : Option String × Option Nat),
    (∀ kv ∈ ex, kv.1 ≠ "message" ∧ kv.1 ≠ "port") →
    deserFields (ex ++ rest) st = deserFields rest st := by
  intro ex
  induction ex with
  | nil => intro rest st _; rfl
  | cons kv ex ih =>
    intro rest st h
    obtain ⟨k, v⟩ := kv
    have hk := h (k, v) (by simp)
    rw [List.cons_append]
    simp only [deserFields, setField_unknown st k v hk.1 hk.2]
    exact ih rest st (fun kv hkv => h kv (by simp [hkv]))

theorem setField_msg_none (k : String) (v : Json) (p : Option Nat)
    (hk : k ≠ "message") :
    (∃ e, setField (none, p) (k, v) = .error e) ∨
    (∃ p', setField (none, p) (k, v) = .ok (none, p')) := by
  by_cases hp : k = "port"
  · subst hp
    cases p with
    | some x => exact Or.inl ⟨"duplicate field port", by simp [setField]⟩
    | none =>
      cases v with
      | num n =>
        by_cases hr : 0 ≤ n ∧ n ≤ 65535
        · exact Or.inr ⟨some n.toNat, by simp [setField, hr]⟩
        · exact Or.inl ⟨"invalid value for field port: out of range for u16",
            by simp [setField, hr]⟩
      | null => exact Or.inl ⟨"invalid type for field port: expected u16",
          by simp [setField]⟩
      | bool b => exact Or.inl ⟨"invalid type for field port: expected u16",
          by simp [setField]⟩
      | str s => exact Or.inl ⟨"invalid type for field port: expected u16",
          by simp [setField]⟩
      | arr xs => exact Or.inl ⟨"invalid type for field port: expected u16",
          by simp [setField]⟩
      | obj fl => exact Or.inl ⟨"invalid type for field port: expected u16",
          by simp [setField]⟩
  · exact Or.inr ⟨p, setField_unknown (none, p) k v hk hp⟩

theorem setField_port_none (k : String) (v : Json) (m : Option String)
    (hk : k ≠ "port") :
    (∃ e, setField (m, none) (k, v) = .error e) ∨
    (∃ m', setField (m, none) (k, v) = .ok (m', none)) := by
  by_cases hm : k = "message"
  · subst hm
    cases m with
    | some x => exact Or.inl ⟨"duplicate field message", by simp [setField]⟩
    | none =>
      cases v with
      | str s => exact Or.inr ⟨some s, by simp [setField]⟩
      | null => exact Or.inl ⟨"invalid type for field message: expected a string",
          by simp [setField]⟩
      | bool b => exact Or.inl ⟨"invalid type for field message: expected a string",
          by simp [setField]⟩
      | num n => exact Or.inl ⟨"invalid type for field message: expected a string",
          by simp [setField]⟩
      | arr xs => exact Or.inl ⟨"invalid type for field message: expected a string",
          by simp [setField]⟩
      | obj fl => exact Or.inl ⟨"invalid type for field message: expected a string",
          by simp [setField]⟩
  · exact Or.inr ⟨m, setField_unknown (m, none) k v hm hk⟩

theorem deserFields_msg_none_not_ok : ∀ (fl : List (String × Json)) (p : Option Nat),
    (∀ kv ∈ fl, kv.1 ≠ "message") → isError (deserFields fl (none, p)) = true := by
  intro fl
  induction fl with
  | nil => intro p _; cases p <;> rfl
  | cons kv fl ih =>
    intro p h
    obtain ⟨k, v⟩ := kv
    have hk : k ≠ "message" := h (k, v) (by simp)
    rcases setField_msg_none k v p hk with ⟨e, he⟩ | ⟨p', hp'⟩
    · simp [deserFields, he, isError]
    · simp only [deserFields, hp']
      exact ih p' (fun kv hkv => h kv (by simp [hkv]))

theorem deserFields_port_none_not_ok : ∀ (fl : List (String × Json)) (m : Option String),
    (∀ kv ∈ fl, kv.1 ≠ "port") → isError (deserFields fl (m, none)) = true := by
  intro fl
  induction fl with
  | nil => intro m _; cases m <;> rfl
  | cons kv fl ih =>
    intro m h
    obtain ⟨k, v⟩ := kv
    have hk : k ≠ "port" := h (k, v) (by simp)
    rcases setField_port_none k v m hk with ⟨e, he⟩ | ⟨m', hm'⟩
    · simp [deserFields, he, isError]
    · simp only [deserFields, hm']
      exact ih m' (fun kv hkv => h kv (by simp [hkv]))

theorem deserFields_msg_mistyped : ∀ (pre : List (String × Json)) (v : Json)
    (rest : List (String × Json)) (p : Option Nat),
    (∀ kv ∈ pre, kv.1 ≠ "message") → (∀ s, v ≠ .str s) →
    isError (deserFields (pre ++ ("message", v) :: rest) (none, p)) = true := by
  intro pre
  induction pre with
  | nil =>
    intro v rest p _ hv
    cases v with
    | str s => exact absurd rfl (hv s)
    | null => simp [deserFields, setField, isError]
    | bool b => simp [deserFields, setField, isError]
    | num n => simp [deserFields, setField, isError]
    | arr xs => simp [deserFields, setField, isError]
    | obj fl => simp [deserFields, setField, isError]
  | cons kv pre ih =>
    intro v rest p h hv
    obtain ⟨k, w⟩ := kv
    have hk : k ≠ "message" := h (k, w) (by simp)
    rw [List.cons_append]
    rcases setField_msg_none k w p hk with ⟨e, he⟩ | ⟨p', hp'⟩
    · simp [deserFields, he, isError]
    · simp only [deserFields, hp']
      exact ih v rest p' (fun kv hkv => h kv (by simp [hkv])) hv

theorem deserFields_port_mistyped : ∀ (pre : List (String × Json)) (v : Json)
    (rest : List (String × Json)) (m : Option String),
    (∀ kv ∈ pre, kv.1 ≠ "port") → (∀ n, 0 ≤ n → n ≤ 65535 → v ≠ .num n) →
    isError (deserFields (pre ++ ("port", v) :: rest) (m, none)) = true := by
  intro pre
  induction pre with
  | nil =>
    intro v rest m _ hv
    cases v with
    | num n =>
      by_cases hr : 0 ≤ n ∧ n ≤ 65535
      · exact absurd rfl (hv n hr.1 hr.2)
      · simp [deserFields, setField, hr, isError]
    | null => simp [deserFields, setField, isError]
    | bool b => simp [deserFields, setField, isError]
    | str s => simp [deserFields, setField, isError]
    | arr xs => simp [deserFields, setField, isError]
    | obj fl => simp [deserFields, setField, isError]
  | cons kv pre ih =>
    intro v rest m h hv
    obtain ⟨k, w⟩ := kv
    have hk : k ≠ "port" := h (k, w) (by simp)
    rw [List.cons_append]
    rcases setField_port_none k w m hk with ⟨e, he⟩ | ⟨m', hm'⟩
    · simp [deserFields, he, isError]
    · simp only [deserFields, hm']
      exact ih v rest m' (fun kv hkv => h kv (by simp [hkv])) hv

/-- Claim C6: a syntactically malformed document fails with its detail;
an object carrying a string `message` and an in-range integer `port` parses
to exactly that `Config` no matter which extra fields surround them; an
object with no `message` key, or no `port` key, fails; and an object whose
(first) `message` entry is not a string, or whose (first) `port` entry is
not an integer representable as a `u16`, fails. -/
theorem c6_config_shape :
    (∀ d, fromStr (.malformed d) = .error d) ∧
    (∀ e1 e2 e3 s n,
      (∀ kv ∈ e1 ++ e2 ++ e3, kv.1 ≠ "message" ∧ kv.1 ≠ "port") →
      0 ≤ n → n ≤ 65535 →
      deserializeConfig (.obj (e1 ++ ("message", Json.str s) ::
        (e2 ++ ("port", Json.num n) :: e3))) =
        .ok { message := s, port := n.toNat }) ∧
    (∀ fl, (∀ kv ∈ fl, kv.1 ≠ "message") →
      isError (deserializeConfig (.obj fl)) = true) ∧
    (∀ fl, (∀ kv ∈ fl, kv.1 ≠ "port") →
      isError (deserializeConfig (.obj fl)) = true) ∧
    (∀ pre v rest, (∀ kv ∈ pre, kv.1 ≠ "message") → (∀ s, v ≠ Json.str s) →
      isError (deserializeConfig (.obj (pre ++ ("message", v) :: rest))) = true) ∧
    (∀ pre v rest, (∀ kv ∈ pre, kv.1 ≠ "port") →
      (∀ n, 0 ≤ n → n ≤ 65535 → v ≠ Json.num n) →
      isError (deserializeConfig (.obj (pre ++ ("port", v) :: rest))) = true) := by
  refine ⟨fun d => rfl, ?_, ?_, ?_, ?_, ?_⟩
  · intro e1 e2 e3 s n hex h0 h65
    show deserFields (e1 ++ ("message", Json.str s) ::
      (e2 ++ ("port", Json.num n) :: e3)) (none, none) = _
    rw [deserFields_skip_unknown e1 _ _ (fun kv hkv => hex kv (by simp [hkv]))]
    rw [show deserFields (("message", Json.str s) ::
        (e2 ++ ("port", Json.num n) :: e3)) (none, none) =
        deserFields (e2 ++ ("port", Json.num n) :: e3) (some s, none) from by
      simp [deserFields, setField]]
    rw [deserFields_skip_unknown e2 _ _ (fun kv hkv => hex kv (by simp [hkv]))]
    rw [show deserFields (("port", Json.num n) :: e3) (some s, none) =
        deserFields e3 (some s, some n.toNat) from by
      simp [deserFields, setField, h0, h65]]
    have he3 := deserFields_skip_unknown e3 [] (some s, some n.toNat)
      (fun kv hkv => hex kv (by simp [hkv]))
    rw [List.append_nil] at he3
    rw [he3]
    rfl
  · intro fl h
    exact deserFields_msg_none_not_ok fl none h
  · intro fl h
    exact deserFields_port_none_not_ok fl none h
  · intro pre v rest h hv
    exact deserFields_msg_mistyped pre v rest none h hv
  · intro pre v rest h hv
    exact deserFields_port_mistyped pre v rest none h hv

theorem c6_witness :
    fromStr (.malformed "expected ident") = .error "expected ident" ∧
    deserializeConfig (.obj [("extra", Json.null), ("message", Json.str "hi"),
      ("more", Json.bool true), ("port", Json.num 80), ("tail", Json.num 1)]) =
      .ok { message := "hi", port := 80 } ∧
    isError (deserializeConfig (.obj [("port", Json.num 80)])) = true ∧
    isError (deserializeConfig (.obj [("message", Json.str "hi")])) = true ∧
    isError (deserializeConfig
      (.obj [("message", Json.num 3), ("port", Json.num 80)])) = true ∧
    isError (deserializeConfig
      (.obj [("message", Json.str "hi"), ("port", Json.num 70000)])) = true := by
  refine ⟨c6_config_shape.1 "expected ident", ?_, ?_, ?_, ?_, ?_⟩
  · exact c6_config_shape.2.1 [("extra", Json.null)] [("more", Json.bool true)]
      [("tail", Json.num 1)] "hi" 80 (by simp) (by decide) (by decide)
  · exact c6_config_shape.2.2.1 [("port", Json.num 80)] (by simp)
  · exact c6_config_shape.2.2.2.1 [("message", Json.str "hi")] (by simp)
  · exact c6_config_shape.2.2.2.2.1 [] (Json.num 3) [("port", Json.num 80)]
      (by simp) (fun s h => Json.noConfusion h)
  · exact c6_config_shape.2.2.2.2.2 [("message", Json.str "hi")] (Json.num 70000) []
      (by simp) (by intro n h1 h2 hc; injection hc with hc; omega)

end ConfigServer
